import Mathlib

/-!
Shallow embedding of `src/theme/SearchPage/index.js`, the search-results page
of the docusaurus-theme-search-typesense theme.  JavaScript `null`/`undefined`
fields are modelled as `Option`, JS numbers arising here (page counters and
hit counts) as `Int`, and the JS coercion of `null` to `0` in arithmetic and
relational contexts is made explicit through `jsToNumber`.
-/

namespace SearchPage

/-- A `ResultItem` as produced by the hit-to-item mapping in the
`result` handler: `{title, url, summary, breadcrumbs}`.  `title` is an
`Option` because `titles.pop()` on an empty JS array yields `undefined`. -/
structure ResultItem where
  title : Option String
  url : String
  summary : String
  breadcrumbs : List String
deriving Repr, DecidableEq

/-- The `searchResultState` object managed by the `useReducer` reducer. -/
structure SearchResultState where
  items : List ResultItem
  query : Option String
  totalResults : Option Int
  totalPages : Option Int
  lastPage : Option Int
  hasMore : Option Bool
  loading : Option Bool
deriving Repr, DecidableEq

/-- `initialSearchResultState`: every field `null`, `items` empty. -/
def initialSearchResultState : SearchResultState :=
  { items := []
    query := none
    totalResults := none
    totalPages := none
    lastPage := none
    hasMore := none
    loading := none }

/-- The payload dispatched with an `update` action (the `value` object built
in the `result` handler). -/
structure UpdatePayload where
  items : List ResultItem
  query : String
  totalResults : Int
  totalPages : Int
  lastPage : Int
  hasMore : Bool
  loading : Bool
deriving Repr, DecidableEq

/-- The four action types dispatched to the reducer. -/
inductive Action where
  | reset
  | loading
  | update (value : UpdatePayload)
  | advance
deriving Repr, DecidableEq

/-- JS `ToNumber` coercion for the nullable numeric state fields:
`null` coerces to `0` both in `null + 1` and in relational comparison. -/
def jsToNumber : Option Int → Int
  | none => 0
  | some n => n

/-- The reducer passed to `useReducer`.  `searchQuery` is the live query
captured from the enclosing component closure.  The JS `switch` has a
`default` branch returning `prevState`, never reached by the four dispatched
action types. -/
def searchResultReducer (searchQuery : String) (prevState : SearchResultState) :
    Action → SearchResultState
  | Action.reset => initialSearchResultState
  | Action.loading => { prevState with loading := some true }
  | Action.update state =>
      if searchQuery ≠ state.query then prevState
      else
        { items :=
            if state.lastPage = 0 then state.items
            else prevState.items ++ state.items
          query := some state.query
          totalResults := some state.totalResults
          totalPages := some state.totalPages
          lastPage := some state.lastPage
          hasMore := some state.hasMore
          loading := some state.loading }
  | Action.advance =>
      let hasMore := jsToNumber prevState.totalPages > jsToNumber prevState.lastPage + 1
      { prevState with
        lastPage :=
          if hasMore then some (jsToNumber prevState.lastPage + 1)
          else prevState.lastPage
        hasMore := some (decide hasMore) }

/-- `sanitizeValue`: rewrites the backend highlight markers into
`span` markers (global replacement of both tags). -/
def sanitizeValue (value : String) : String :=
  (value.replace "<algolia-docsearch-suggestion--highlight>"
      "<span class=\"search-result-match\">").replace
    "</algolia-docsearch-suggestion--highlight>" "</span>"

/-- The `_highlightResult` hierarchy fields of a hit: `hierarchy.lvl0` ..
`hierarchy.lvl6`, each either absent (`none`) or a highlight value string. -/
structure HighlightResult where
  lvl0 : Option String
  lvl1 : Option String
  lvl2 : Option String
  lvl3 : Option String
  lvl4 : Option String
  lvl5 : Option String
  lvl6 : Option String
deriving Repr, DecidableEq

/-- The components of `new URL(url)` that the mapping reads: `pathname`,
`search` (the query string, which the code drops) and `hash` (the fragment). -/
structure HitURL where
  pathname : String
  search : String
  hash : String
deriving Repr, DecidableEq

/-- A raw hit as consumed by the `result` handler: its URL, its
`_highlightResult` hierarchy fields and the optional
`_snippetResult.content.value`. -/
structure Hit where
  url : HitURL
  highlightResult : HighlightResult
  snippetContent : Option String
deriving Repr, DecidableEq

/-- The JS expression `[0,1,2,3,4,5,6].map(lvl => _highlightResult[...])`:
the seven hierarchy levels in level order. -/
def hierarchyLevels (h : HighlightResult) : List (Option String) :=
  [h.lvl0, h.lvl1, h.lvl2, h.lvl3, h.lvl4, h.lvl5, h.lvl6]

/-- The `titles` array: each present level sanitized, then
`.filter(v => v)`, which drops both `null` entries and empty strings. -/
def titlesOf (h : HighlightResult) : List String :=
  ((hierarchyLevels h).filterMap (fun o => o.map sanitizeValue)).filter
    (fun v => v ≠ "")

/-- The hit-to-`ResultItem` mapping inside the `result` handler:
`title` is `titles.pop()` (the last element, `undefined` when empty),
`breadcrumbs` is what remains of `titles` after the pop, `url` is
`pathname + hash`, and `summary` is the sanitized snippet suffixed with
`...` when a snippet is present, else the empty string. -/
def shapeHit (hit : Hit) : ResultItem :=
  let titles := titlesOf hit.highlightResult
  { title := titles.getLast?
    url := hit.url.pathname ++ hit.url.hash
    summary :=
      match hit.snippetContent with
      | some c => sanitizeValue c ++ "..."
      | none => ""
    breadcrumbs := titles.dropLast }

/-- The destructured `results` object delivered to the `result` handler.
`hits` is `none` when the `hits` field is not an array (malformed response). -/
structure SearchResults where
  query : String
  hits : Option (List Hit)
  page : Int
  nbHits : Int
  nbPages : Int
deriving Repr, DecidableEq

/-- The `result` handler: dispatches `reset` when the echoed query is empty
or `hits` is not an array, otherwise dispatches `update` with the shaped
items and the derived fields (`hasMore = nbPages > page + 1`,
`loading = false`). -/
def resultHandlerAction (r : SearchResults) : Action :=
  match r.hits with
  | none => Action.reset
  | some hits =>
      if r.query = "" then Action.reset
      else
        Action.update
          { items := hits.map shapeHit
            query := r.query
            totalResults := r.nbHits
            totalPages := r.nbPages
            lastPage := r.page
            hasMore := decide (r.nbPages > r.page + 1)
            loading := false }

/-- The first entry delivered to the `IntersectionObserver` callback:
`isIntersecting` and `boundingClientRect.y`. -/
structure ObserverEntry where
  isIntersecting : Bool
  boundingY : Int
deriving Repr, DecidableEq

/-- One run of the `IntersectionObserver` callback: given the stored
`prevY.current` and the observed entry, returns whether an `advance` action
is dispatched (`isIntersecting && prevY.current > currentY`) and the new
value of `prevY.current` (always set to `currentY`). -/
def observerStep (prevY : Int) (entry : ObserverEntry) : Bool × Int :=
  (entry.isIntersecting && decide (prevY > entry.boundingY), entry.boundingY)

/-- A disjunctive facet refinement `(attribute, value)` added by
`makeSearch` via `addDisjunctiveFacetRefinement`. -/
structure FacetRefinement where
  name : String
  value : String
deriving Repr, DecidableEq

/-- JS truthiness of a nullable string: `undefined` (absent) and `''` are
falsy, every other string truthy. -/
def jsFalsyString : Option String → Bool
  | none => true
  | some s => s == ""

/-- The facet refinements added by `makeSearch`: guarded by
`!typesenseSearchParameters.filter_by && typesenseSearchParameters.filter_by !== ''`,
it adds `('docusaurus_tag','default')`, `('language', currentLocale)` and one
`('docusaurus_tag', 'docs-<pluginId>-<searchVersion>')` per docs plugin entry
of `searchVersions`, in that order; otherwise it adds nothing. -/
def makeSearchRefinements (filterBy : Option String) (currentLocale : String)
    (searchVersions : List (String × String)) : List FacetRefinement :=
  if jsFalsyString filterBy && filterBy != some "" then
    { name := "docusaurus_tag", value := "default" } ::
    { name := "language", value := currentLocale } ::
    searchVersions.map (fun pv =>
      { name := "docusaurus_tag", value := "docs-" ++ pv.1 ++ "-" ++ pv.2 })
  else []

/-- The guard of the `useEffect` watching `searchResultState.lastPage`:
`if (!lastPage || lastPage === 0) return;` — the next-page fetch
`makeSearch(lastPage)` runs exactly when `lastPage` is a non-zero number. -/
def shouldFetchNextPage : Option Int → Bool
  | none => false
  | some n => n != 0

/-- C1: an `update` action whose payload query differs from the live search
query returns the prior state unchanged (the stale response is discarded and
mutates no field); conversely, an `update` that changes the state must carry
exactly the live query. -/
theorem update_stale_response_discarded (q : String) (prev : SearchResultState)
    (p : UpdatePayload) :
    (p.query ≠ q → searchResultReducer q prev (Action.update p) = prev) ∧
    (searchResultReducer q prev (Action.update p) ≠ prev → p.query = q) := by
  constructor
  · intro hne
    simp only [searchResultReducer]
    rw [if_pos (Ne.symm hne)]
  · intro hch
    by_contra hne
    apply hch
    simp only [searchResultReducer]
    rw [if_pos (Ne.symm hne)]

/-- C1 witness: a stale response for query `bar` arriving while the live
query is `foo` leaves the state untouched. -/
theorem update_stale_response_discarded_witness :
    searchResultReducer "foo" initialSearchResultState
      (Action.update
        { items := []
          query := "bar"
          totalResults := 0
          totalPages := 0
          lastPage := 0
          hasMore := false
          loading := false })
      = initialSearchResultState :=
  (update_stale_response_discarded "foo" initialSearchResultState
    { items := []
      query := "bar"
      totalResults := 0
      totalPages := 0
      lastPage := 0
      hasMore := false
      loading := false }).1 (by decide)

/-- C2: an accepted `update` (payload query equal to the live query) replaces
`items` with the payload items when the payload page index is `0`, and
appends the payload items after the prior items when the page index is at
least `1`. -/
theorem update_replaces_page_zero_appends_later (q : String)
    (prev : SearchResultState) (p : UpdatePayload) (hq : p.query = q) :
    (p.lastPage = 0 →
      (searchResultReducer q prev (Action.update p)).items = p.items) ∧
    (1 ≤ p.lastPage →
      (searchResultReducer q prev (Action.update p)).items
        = prev.items ++ p.items) := by
  subst hq
  constructor
  · intro h0
    simp [searchResultReducer, h0]
  · intro h1
    have h0 : p.lastPage ≠ 0 := by omega
    simp [searchResultReducer, h0]

/-- C2 witness: a page-1 response for the live query appends its item after
the previously accumulated one. -/
theorem update_replaces_page_zero_appends_later_witness :
    (searchResultReducer "foo"
        { initialSearchResultState with
          items := [{ title := some "A", url := "/a", summary := "", breadcrumbs := [] }] }
        (Action.update
          { items := [{ title := some "B", url := "/b", summary := "", breadcrumbs := [] }]
            query := "foo"
            totalResults := 2
            totalPages := 2
            lastPage := 1
            hasMore := false
            loading := false })).items
      = [{ title := some "A", url := "/a", summary := "", breadcrumbs := [] }]
        ++ [{ title := some "B", url := "/b", summary := "", breadcrumbs := [] }] :=
  (update_replaces_page_zero_appends_later "foo"
    { initialSearchResultState with
      items := [{ title := some "A", url := "/a", summary := "", breadcrumbs := [] }] }
    { items := [{ title := some "B", url := "/b", summary := "", breadcrumbs := [] }]
      query := "foo"
      totalResults := 2
      totalPages := 2
      lastPage := 1
      hasMore := false
      loading := false } rfl).2 (by norm_num)

/-- C3: `hasMore` is true iff `totalPages > lastPage + 1`, both as re-derived
by the `advance` case of the reducer from the observed `(totalPages,
lastPage)` pair and as computed by the `result` handler from the response's
`(nbPages, page)`. -/
theorem hasMore_iff_more_pages (q : String) (prev : SearchResultState)
    (tp lp : Int) (htp : prev.totalPages = some tp)
    (hlp : prev.lastPage = some lp) (r : SearchResults) :
    ((searchResultReducer q prev Action.advance).hasMore = some true
        ↔ tp > lp + 1) ∧
    (∀ p, resultHandlerAction r = Action.update p →
      (p.hasMore = true ↔ r.nbPages > r.page + 1)) := by
  constructor
  · simp [searchResultReducer, htp, hlp, jsToNumber]
  · intro p hp
    obtain ⟨rq, rhits, rpage, rnbHits, rnbPages⟩ := r
    cases rhits with
    | none => exact Action.noConfusion hp
    | some hits =>
        by_cases hq : rq = ""
        · simp [resultHandlerAction, hq] at hp
        · simp only [resultHandlerAction, if_neg hq] at hp
          injection hp with h
          subst h
          simp

/-- C3 witness: with `totalPages = 3` and `lastPage = 0` the reducer derives
`hasMore = true`, and a response with `nbPages = 2, page = 0` is flagged as
having more pages. -/
theorem hasMore_iff_more_pages_witness :
    ((searchResultReducer "q"
        { initialSearchResultState with totalPages := some 3, lastPage := some 0 }
        Action.advance).hasMore = some true
      ↔ (3 : Int) > 0 + 1) ∧
    (∀ p, resultHandlerAction
        { query := "q", hits := some [], page := 0, nbHits := 0, nbPages := 2 }
          = Action.update p →
      (p.hasMore = true ↔ (2 : Int) > 0 + 1)) :=
  hasMore_iff_more_pages "q"
    { initialSearchResultState with totalPages := some 3, lastPage := some 0 }
    3 0 rfl rfl
    { query := "q", hits := some [], page := 0, nbHits := 0, nbPages := 2 }

/-- C4: `advance` increments `lastPage` by exactly one when
`totalPages > lastPage + 1` re-derived from the state holds, and leaves it
unchanged otherwise; the next-page fetch effect fires exactly when
`lastPage` is a non-zero number. -/
theorem advance_increments_lastPage (q : String) (prev : SearchResultState) :
    (jsToNumber prev.totalPages > jsToNumber prev.lastPage + 1 →
      (searchResultReducer q prev Action.advance).lastPage
        = some (jsToNumber prev.lastPage + 1)) ∧
    (¬ jsToNumber prev.totalPages > jsToNumber prev.lastPage + 1 →
      (searchResultReducer q prev Action.advance).lastPage = prev.lastPage) ∧
    (∀ lp : Option Int,
      shouldFetchNextPage lp = true ↔ ∃ n : Int, lp = some n ∧ n ≠ 0) := by
  refine ⟨?_, ?_, ?_⟩
  · intro h
    simp [searchResultReducer, h]
  · intro h
    simp [searchResultReducer, h]
  · intro lp
    cases lp <;> simp [shouldFetchNextPage, bne_iff_ne]

/-- C4 witness: with `totalPages = 5` and `lastPage = 1` an `advance` moves
`lastPage` to `2`. -/
theorem advance_increments_lastPage_witness :
    (searchResultReducer "q"
        { initialSearchResultState with totalPages := some 5, lastPage := some 1 }
        Action.advance).lastPage
      = some (jsToNumber (some (1 : Int)) + 1) :=
  (advance_increments_lastPage "q"
    { initialSearchResultState with totalPages := some 5, lastPage := some 1 }).1
    (by decide)

/-- C5: a response with an empty echoed query or a non-array `hits` field
makes the `result` handler dispatch `reset`, and `reset` always returns the
all-null/empty initial state regardless of the prior state. -/
theorem reset_on_empty_or_malformed (r : SearchResults) (q : String)
    (prev : SearchResultState) (h : r.query = "" ∨ r.hits = none) :
    resultHandlerAction r = Action.reset ∧
    searchResultReducer q prev Action.reset =
      { items := []
        query := none
        totalResults := none
        totalPages := none
        lastPage := none
        hasMore := none
        loading := none } := by
  constructor
  · obtain ⟨rq, rhits, rpage, rnbHits, rnbPages⟩ := r
    cases rhits with
    | none => rfl
    | some hits =>
        rcases h with h | h
        · simp only at h
          simp [resultHandlerAction, h]
        · exact Option.noConfusion h
  · rfl

/-- C5 witness: an empty-query response triggers `reset`, and `reset` from a
state holding an accumulated item yields the initial state. -/
theorem reset_on_empty_or_malformed_witness :
    resultHandlerAction
        { query := "", hits := some [], page := 0, nbHits := 0, nbPages := 0 }
      = Action.reset ∧
    searchResultReducer "q"
        { initialSearchResultState with
          items := [{ title := some "A", url := "/a", summary := "", breadcrumbs := [] }] }
        Action.reset =
      { items := []
        query := none
        totalResults := none
        totalPages := none
        lastPage := none
        hasMore := none
        loading := none } :=
  reset_on_empty_or_malformed
    { query := "", hits := some [], page := 0, nbHits := 0, nbPages := 0 }
    "q"
    { initialSearchResultState with
      items := [{ title := some "A", url := "/a", summary := "", breadcrumbs := [] }] }
    (Or.inl rfl)

/-- C6: when the host configuration supplies an explicit `filter_by`
expression, `makeSearch` adds no automatic facet refinements; otherwise it
adds `('docusaurus_tag','default')`, `('language', locale)` and one
`('docusaurus_tag','docs-<group>-<version>')` per documentation group, with
the currently selected version. -/
theorem makeSearch_facet_refinements (filterBy : Option String)
    (locale : String) (versions : List (String × String)) :
    (filterBy ≠ none → makeSearchRefinements filterBy locale versions = []) ∧
    (filterBy = none →
      makeSearchRefinements filterBy locale versions =
        { name := "docusaurus_tag", value := "default" } ::
        { name := "language", value := locale } ::
        versions.map (fun pv =>
          { name := "docusaurus_tag",
            value := "docs-" ++ pv.1 ++ "-" ++ pv.2 })) := by
  constructor
  · intro hne
    cases filterBy with
    | none => exact absurd rfl hne
    | some s =>
        by_cases hs : s = ""
        · subst hs
          rfl
        · simp [makeSearchRefinements, jsFalsyString, hs]
  · intro h
    subst h
    rfl

/-- C6 witness: an explicit filter suppresses the automatic facets, and an
absent filter yields the default tag, locale and per-group version facets. -/
theorem makeSearch_facet_refinements_witness :
    makeSearchRefinements (some "type:doc") "en" [("default", "2.x")] = [] ∧
    makeSearchRefinements none "en" [("default", "2.x")] =
      { name := "docusaurus_tag", value := "default" } ::
      { name := "language", value := "en" } ::
      [(("default" : String), ("2.x" : String))].map (fun pv =>
        { name := "docusaurus_tag",
          value := "docs-" ++ pv.1 ++ "-" ++ pv.2 }) :=
  ⟨(makeSearch_facet_refinements (some "type:doc") "en" [("default", "2.x")]).1
      (by decide),
   (makeSearch_facet_refinements none "en" [("default", "2.x")]).2 rfl⟩

/-- Popping the last element of a JS array: a list is its `dropLast`
followed by its optional last element. -/
theorem dropLast_append_getLast_toList (l : List String) :
    l.dropLast ++ l.getLast?.toList = l := by
  induction l with
  | nil => rfl
  | cons a t ih =>
      cases t with
      | nil => rfl
      | cons b u => simpa using ih

/-- C7: the hit mapping inspects hierarchy levels lvl0..lvl6 in level order;
the deepest non-empty level becomes the title, the remaining non-empty
levels in level order become the breadcrumbs, the url is the URL's pathname
concatenated with its fragment, and the summary is the sanitized snippet
suffixed with an ellipsis when present and empty otherwise. -/
theorem shapeHit_title_breadcrumbs_url_summary (hit : Hit) :
    (shapeHit hit).title = (titlesOf hit.highlightResult).getLast? ∧
    (shapeHit hit).breadcrumbs ++ (shapeHit hit).title.toList
      = titlesOf hit.highlightResult ∧
    (shapeHit hit).url = hit.url.pathname ++ hit.url.hash ∧
    (shapeHit hit).summary =
      (match hit.snippetContent with
        | some c => sanitizeValue c ++ "..."
        | none => "") :=
  ⟨rfl, dropLast_append_getLast_toList _, rfl, rfl⟩

/-- C8: the intersection-observer callback dispatches `advance` iff the
sentinel is intersecting and its vertical position is strictly below the
previous observation (downward scroll); the current position is always
recorded for the next observation. -/
theorem observer_advance_iff_downward (prevY : Int) (e : ObserverEntry) :
    ((observerStep prevY e).1 = true
        ↔ (e.isIntersecting = true ∧ prevY > e.boundingY)) ∧
    (observerStep prevY e).2 = e.boundingY := by
  constructor
  · simp [observerStep]
  · rfl

/-- C9: the `loading` action sets the loading flag to true and leaves every
other field of the state unchanged. -/
theorem loading_sets_flag_only (q : String) (prev : SearchResultState) :
    (searchResultReducer q prev Action.loading).loading = some true ∧
    (searchResultReducer q prev Action.loading).items = prev.items ∧
    (searchResultReducer q prev Action.loading).query = prev.query ∧
    (searchResultReducer q prev Action.loading).totalResults
      = prev.totalResults ∧
    (searchResultReducer q prev Action.loading).totalPages = prev.totalPages ∧
    (searchResultReducer q prev Action.loading).lastPage = prev.lastPage ∧
    (searchResultReducer q prev Action.loading).hasMore = prev.hasMore :=
  ⟨rfl, rfl, rfl, rfl, rfl, rfl, rfl⟩

/-- C10: a hit whose highlight result carries no hierarchy level (lvl0..lvl6
all absent) produces a ResultItem with an absent title (`titles.pop()` on an
empty array yields `undefined`) and empty breadcrumbs. -/
theorem empty_hierarchy_gives_no_title (hit : Hit)
    (h : hit.highlightResult =
      { lvl0 := none
        lvl1 := none
        lvl2 := none
        lvl3 := none
        lvl4 := none
        lvl5 := none
        lvl6 := none }) :
    (shapeHit hit).title = none ∧ (shapeHit hit).breadcrumbs = [] := by
  constructor <;> simp [shapeHit, titlesOf, hierarchyLevels, h]

/-- C10 witness: a concrete hit with no hierarchy levels maps to an item
with no title and no breadcrumbs. -/
theorem empty_hierarchy_gives_no_title_witness :
    (shapeHit
        { url := { pathname := "/docs/intro", search := "", hash := "" }
          highlightResult :=
            { lvl0 := none
              lvl1 := none
              lvl2 := none
              lvl3 := none
              lvl4 := none
              lvl5 := none
              lvl6 := none }
          snippetContent := none }).title = none ∧
    (shapeHit
        { url := { pathname := "/docs/intro", search := "", hash := "" }
          highlightResult :=
            { lvl0 := none
              lvl1 := none
              lvl2 := none
              lvl3 := none
              lvl4 := none
              lvl5 := none
              lvl6 := none }
          snippetContent := none }).breadcrumbs = [] :=
  empty_hierarchy_gives_no_title
    { url := { pathname := "/docs/intro", search := "", hash := "" }
      highlightResult :=
        { lvl0 := none
          lvl1 := none
          lvl2 := none
          lvl3 := none
          lvl4 := none
          lvl5 := none
          lvl6 := none }
      snippetContent := none } rfl

end SearchPage
